import Mathlib

/-!
Verification of the ImageOverlay window-geometry controller (src/main.py).

The controller's arithmetic is embedded shallowly:

* Python/Qt integers are `ℤ` (both are unbounded for the ranges involved;
  Qt's `int` never overflows in the quantities the controller manipulates).
* Python floats are modelled as exact rationals, represented by the
  executable pair type `Frac` below (numerator/denominator, denominator
  kept nonnegative), so that every value the controller computes can be
  evaluated by the kernel.  `int(x)` on a float truncates toward zero,
  which is `Int.tdiv` of the pair.
* `QRect` mirrors Qt's rectangle: stored as `x1 y1 x2 y2` with
  `width = x2 - x1 + 1`, and the exact semantics of `setLeft`, `setRight`,
  `setTop`, `setBottom`, `setWidth`, `setHeight`, `moveLeft`, `moveTop`,
  `center` and `moveCenter` from QtCore.
-/

namespace ImageOverlay

/-- Exact rational value of a Python float expression: numerator and
denominator, denominator kept nonnegative by sign normalisation in every
operation. -/
structure Frac where
  n : ℤ
  d : ℤ
deriving DecidableEq, Repr

/-- Build a fraction, moving any sign on the denominator to the numerator. -/
def Frac.mk' (n d : ℤ) : Frac := if d < 0 then ⟨-n, -d⟩ else ⟨n, d⟩

def Frac.ofInt (z : ℤ) : Frac := ⟨z, 1⟩

instance : IntCast Frac := ⟨Frac.ofInt⟩

instance (n : ℕ) : OfNat Frac n := ⟨⟨(n : ℤ), 1⟩⟩

def Frac.add (a b : Frac) : Frac := Frac.mk' (a.n * b.d + b.n * a.d) (a.d * b.d)

def Frac.sub (a b : Frac) : Frac := Frac.mk' (a.n * b.d - b.n * a.d) (a.d * b.d)

def Frac.mul (a b : Frac) : Frac := Frac.mk' (a.n * b.n) (a.d * b.d)

def Frac.div (a b : Frac) : Frac := Frac.mk' (a.n * b.d) (a.d * b.n)

instance : Add Frac := ⟨Frac.add⟩

instance : Sub Frac := ⟨Frac.sub⟩

instance : Mul Frac := ⟨Frac.mul⟩

instance : Div Frac := ⟨Frac.div⟩

/-- Comparison of two float values (valid for the nonnegative-denominator
representatives produced by the operations above). -/
def Frac.lt (a b : Frac) : Prop := a.n * b.d < b.n * a.d

def Frac.le (a b : Frac) : Prop := a.n * b.d ≤ b.n * a.d

instance : LT Frac := ⟨Frac.lt⟩

instance : LE Frac := ⟨Frac.le⟩

instance (a b : Frac) : Decidable (a < b) :=
  inferInstanceAs (Decidable (a.n * b.d < b.n * a.d))

instance (a b : Frac) : Decidable (a ≤ b) :=
  inferInstanceAs (Decidable (a.n * b.d ≤ b.n * a.d))

/-- Python's two-argument `min` on floats: returns the first argument on
ties. -/
def Frac.fmin (a b : Frac) : Frac := if b < a then b else a

/-- Python's `int(x)` on a float: truncation toward zero. -/
def pyInt (a : Frac) : ℤ := a.n.tdiv a.d

/-- The rational value denoted by a `Frac`, for stating semantic
properties. -/
def Frac.toRat (a : Frac) : ℚ := (a.n : ℚ) / (a.d : ℚ)

/-- A point in screen or widget coordinates (QPoint). -/
structure QPoint where
  x : ℤ
  y : ℤ
deriving DecidableEq, Repr

instance : Add QPoint := ⟨fun a b => ⟨a.x + b.x, a.y + b.y⟩⟩

instance : Sub QPoint := ⟨fun a b => ⟨a.x - b.x, a.y - b.y⟩⟩

/-- Qt rectangle, stored like QtCore.QRect as both corners:
left `x1`, top `y1`, right `x2`, bottom `y2`. -/
structure QRect where
  x1 : ℤ
  y1 : ℤ
  x2 : ℤ
  y2 : ℤ
deriving DecidableEq, Repr

/-- QRect(x, y, w, h) constructor. -/
def QRect.mk4 (x y w h : ℤ) : QRect := ⟨x, y, x + w - 1, y + h - 1⟩

def QRect.left (r : QRect) : ℤ := r.x1

def QRect.top (r : QRect) : ℤ := r.y1

def QRect.right (r : QRect) : ℤ := r.x2

def QRect.bottom (r : QRect) : ℤ := r.y2

def QRect.width (r : QRect) : ℤ := r.x2 - r.x1 + 1

def QRect.height (r : QRect) : ℤ := r.y2 - r.y1 + 1

def QRect.setLeft (r : QRect) (v : ℤ) : QRect := { r with x1 := v }

def QRect.setRight (r : QRect) (v : ℤ) : QRect := { r with x2 := v }

def QRect.setTop (r : QRect) (v : ℤ) : QRect := { r with y1 := v }

def QRect.setBottom (r : QRect) (v : ℤ) : QRect := { r with y2 := v }

def QRect.setWidth (r : QRect) (w : ℤ) : QRect := { r with x2 := r.x1 + w - 1 }

def QRect.setHeight (r : QRect) (h : ℤ) : QRect := { r with y2 := r.y1 + h - 1 }

/-- Translate horizontally so the left edge lands on `v` (size kept). -/
def QRect.moveLeft (r : QRect) (v : ℤ) : QRect :=
  ⟨v, r.y1, v + (r.x2 - r.x1), r.y2⟩

/-- Translate vertically so the top edge lands on `v` (size kept). -/
def QRect.moveTop (r : QRect) (v : ℤ) : QRect :=
  ⟨r.x1, v, r.x2, v + (r.y2 - r.y1)⟩

/-- QRect::center, with C++ integer division (truncation toward zero). -/
def QRect.center (r : QRect) : QPoint :=
  ⟨(r.x1 + r.x2).tdiv 2, (r.y1 + r.y2).tdiv 2⟩

/-- QRect::moveCenter: translate so the center lands on `c` (size kept). -/
def QRect.moveCenter (r : QRect) (c : QPoint) : QRect :=
  let w := r.x2 - r.x1
  let h := r.y2 - r.y1
  ⟨c.x - w.tdiv 2, c.y - h.tdiv 2, c.x - w.tdiv 2 + w, c.y - h.tdiv 2 + h⟩

/-- ImageOverlayApp.get_resize_edge (src/main.py lines 574-588):
bit 1 = Left, 2 = Right, 4 = Top, 8 = Bottom, from the pointer position
`(x, y)` in window-local coordinates, window size `(w, h)` and margin
`m`. -/
def get_resize_edge (x y w h m : ℤ) : ℕ :=
  (if x < m then 1 else if x > w - m then 2 else 0) |||
  (if y < m then 4 else if y > h - m then 8 else 0)

/-- C6: the edge classifier never sets both Left and Right, nor both Top
and Bottom, and when the pointer satisfies the Left (resp. Top) test the
Left (resp. Top) flag wins even if the Right (resp. Bottom) test would
also hold (window narrower/shorter than twice the margin), so the mask
always encodes at most one direction per axis. -/
theorem edge_mask_per_axis_exclusive (x y w h m : ℤ) :
    (¬(get_resize_edge x y w h m &&& 1 ≠ 0 ∧ get_resize_edge x y w h m &&& 2 ≠ 0)) ∧
    (¬(get_resize_edge x y w h m &&& 4 ≠ 0 ∧ get_resize_edge x y w h m &&& 8 ≠ 0)) ∧
    (x < m → get_resize_edge x y w h m &&& 1 ≠ 0 ∧ get_resize_edge x y w h m &&& 2 = 0) ∧
    (y < m → get_resize_edge x y w h m &&& 4 ≠ 0 ∧ get_resize_edge x y w h m &&& 8 = 0) := by
  unfold get_resize_edge
  split_ifs with h1 h2 h3 h4 h5 h6 <;>
    refine ⟨?_, ?_, ?_, ?_⟩ <;>
    first
      | decide
      | (intro hx; exact absurd hx (by assumption))
      | (intro hx; exact ⟨by decide, by decide⟩)

/-- Witness for C6 on a window narrower and shorter than twice the margin
(15×15 window, margin 10, pointer at (5,5) triggering both tests on each
axis): Left and Top win. -/
theorem edge_mask_per_axis_exclusive_witness :
    (get_resize_edge 5 5 15 15 10 &&& 1 ≠ 0 ∧ get_resize_edge 5 5 15 15 10 &&& 2 = 0) ∧
    (get_resize_edge 5 5 15 15 10 &&& 4 ≠ 0 ∧ get_resize_edge 5 5 15 15 10 &&& 8 = 0) :=
  ⟨(edge_mask_per_axis_exclusive 5 5 15 15 10).2.2.1 (by decide),
   (edge_mask_per_axis_exclusive 5 5 15 15 10).2.2.2 (by decide)⟩

/-- Chrome width overhead hardcoded in both load_image (line 386) and
handle_resize (line 640). -/
def extra_w_const : ℤ := 18

/-- Vertical chrome overhead hardcoded in handle_resize (line 641). -/
def resize_extra_h : ℤ := 78

/-- Vertical chrome overhead computed in load_image (lines 389-393) and
rotate_image (lines 455-458): title-bar height plus bottom-bar height
(floored at 35) plus 18. -/
def chrome_extra_h (title_h bottom_h : ℤ) : ℤ :=
  title_h + (if bottom_h < 35 then 35 else bottom_h) + 18

/-- Step 2 of handle_resize (src/main.py lines 607-621): the unconstrained
candidate rectangle obtained from the anchor geometry `geo` by moving only
the edges in `edge` by the pointer delta `diff`. -/
def resizeCandidate (edge : ℕ) (geo : QRect) (diff : QPoint) : QRect :=
  let g1 :=
    if edge &&& 1 ≠ 0 then geo.setLeft (geo.left + diff.x)
    else if edge &&& 2 ≠ 0 then geo.setRight (geo.right + diff.x)
    else geo
  if edge &&& 4 ≠ 0 then g1.setTop (geo.top + diff.y)
  else if edge &&& 8 ≠ 0 then g1.setBottom (geo.bottom + diff.y)
  else g1

/-- Aspect-ratio enforcement of handle_resize (src/main.py lines 624-697),
applied to the candidate rectangle `cand` with anchor geometry `geo` and
aspect ratio `r`. -/
def applyAspect (edge : ℕ) (geo cand : QRect) (r : Frac) : QRect :=
  let w := cand.width
  let h := cand.height
  if edge = 1 ∨ edge = 2 then
    let tcw := max 1 (w - extra_w_const)
    cand.setHeight (pyInt ((tcw : Frac) / r + (resize_extra_h : Frac)))
  else if edge = 4 ∨ edge = 8 then
    let tch := max 1 (h - resize_extra_h)
    cand.setWidth (pyInt ((tch : Frac) * r + (extra_w_const : Frac)))
  else
    let delta_w := |cand.width - geo.width|
    let delta_h := |cand.height - geo.height|
    if ((delta_h : Frac) * r) < (delta_w : Frac) then
      let tcw := max 1 (w - extra_w_const)
      let new_h := pyInt ((tcw : Frac) / r + (resize_extra_h : Frac))
      if edge &&& 4 ≠ 0 then cand.setTop (cand.bottom - new_h + 1)
      else cand.setHeight new_h
    else
      let tch := max 1 (h - resize_extra_h)
      let new_w := pyInt ((tch : Frac) * r + (extra_w_const : Frac))
      if edge &&& 1 ≠ 0 then cand.setLeft (cand.right - new_w + 1)
      else cand.setWidth new_w

/-- Minimum-size clamp of handle_resize (src/main.py lines 699-703). -/
def minClamp (g : QRect) : QRect :=
  let g1 := if g.width < 100 then g.setWidth 100 else g
  if g1.height < 100 then g1.setHeight 100 else g1

/-- ImageOverlayApp.handle_resize (src/main.py lines 603-705): `edge` is
the mask captured at press, `startGeo` the geometry captured at press,
`diff` the pointer delta since press, `aspect` the stored aspect-ratio
float (None before any image is loaded; Python's truthiness also skips
the constraint for a 0.0 value). -/
def handle_resize (edge : ℕ) (startGeo : QRect) (diff : QPoint)
    (aspect : Option Frac) : QRect :=
  let cand := resizeCandidate edge startGeo diff
  let g :=
    match aspect with
    | some r => if r.n ≠ 0 then applyAspect edge startGeo cand r else cand
    | none => cand
  minClamp g

theorem setWidth_width (g : QRect) (w : ℤ) : (g.setWidth w).width = w := by
  simp only [QRect.setWidth, QRect.width]; ring

theorem setHeight_height (g : QRect) (h : ℤ) : (g.setHeight h).height = h := by
  simp only [QRect.setHeight, QRect.height]; ring

theorem setHeight_width (g : QRect) (h : ℤ) : (g.setHeight h).width = g.width := rfl

theorem setWidth_height (g : QRect) (w : ℤ) : (g.setWidth w).height = g.height := rfl

theorem minClamp_min (g : QRect) :
    100 ≤ (minClamp g).width ∧ 100 ≤ (minClamp g).height := by
  simp only [minClamp]
  split_ifs with h1 h2 h3 <;>
    refine ⟨?_, ?_⟩ <;>
    simp only [setWidth_width, setHeight_width, setWidth_height,
      setHeight_height] at * <;>
    omega

/-- C2 (amended): every drag-resize move — any edge mask, any pointer
delta, any prior geometry, with or without an aspect constraint — yields a
window at least 100 logical units wide and 100 tall, thanks to the final
clamp.  (The rotation-triggered recompute does not share this clamp; see
the counterexample theorem.) -/
theorem resize_respects_min_floor (edge : ℕ) (startGeo : QRect) (diff : QPoint)
    (aspect : Option Frac) :
    100 ≤ (handle_resize edge startGeo diff aspect).width ∧
    100 ≤ (handle_resize edge startGeo diff aspect).height := by
  unfold handle_resize
  exact minClamp_min _

/-- C4 fails as stated: in the spec's scenario — window (100,100,500,400),
margin 10, aspect ratio 3/2, press at global (600,300), move to (650,300),
mask {Right} — the implementation truncates 532/1.5 + 78 = 432.66... toward
zero, producing height 432, not the claimed 433. -/
theorem right_drag_scenario_height_not_433 :
    (handle_resize 2 (QRect.mk4 100 100 500 400) ⟨50, 0⟩ (some ⟨3, 2⟩)).height
      = 432 ∧
    ¬((handle_resize 2 (QRect.mk4 100 100 500 400) ⟨50, 0⟩ (some ⟨3, 2⟩)).height
      = 433) := by
  decide

/-- C4 (amended): in the spec's scenario the press point (600,300) — local
(500,200) in the 500×400 window with margin 10 — classifies as the Right
edge (mask 2), and the move to (650,300) (delta 50,0) produces window width
550 and height 432: content width 532, content height 532/1.5 = 354.66...,
plus chrome 78, with the implementation's single rounding rule being
truncation toward zero (Python int()). -/
theorem right_drag_scenario_result :
    get_resize_edge 500 200 500 400 10 = 2 ∧
    (handle_resize 2 (QRect.mk4 100 100 500 400) ⟨50, 0⟩ (some ⟨3, 2⟩)).width
      = 550 ∧
    (handle_resize 2 (QRect.mk4 100 100 500 400) ⟨50, 0⟩ (some ⟨3, 2⟩)).height
      = 432 := by
  decide

/-- Content width of a window as rotate_image computes it (line 461):
window width minus the 18-unit horizontal chrome, floored at 1. -/
def contentW (g : QRect) : ℤ := max 1 (g.width - extra_w_const)

/-- Content height of a window as rotate_image computes it (line 462):
window height minus the computed vertical chrome, floored at 1. -/
def contentH (title_h bottom_h : ℤ) (g : QRect) : ℤ :=
  max 1 (g.height - chrome_extra_h title_h bottom_h)

/-- Proposed (and possibly screen-scaled) window size in rotate_image
(src/main.py lines 474-491): swap the content box, add chrome back, and if
the result exceeds the available screen in either dimension scale both
dimensions by min(screen/w, screen/h, 1.0), truncating to int. -/
def rotate_scaled_size (geo : QRect) (title_h bottom_h : ℤ) (sg : QRect) :
    ℤ × ℤ :=
  let new_w := contentH title_h bottom_h geo + extra_w_const
  let new_h := contentW geo + chrome_extra_h title_h bottom_h
  if new_w > sg.width ∨ new_h > sg.height then
    let scale_w := (sg.width : Frac) / (new_w : Frac)
    let scale_h := (sg.height : Frac) / (new_h : Frac)
    let scale := Frac.fmin (Frac.fmin scale_w scale_h) 1
    (pyInt ((new_w : Frac) * scale), pyInt ((new_h : Frac) * scale))
  else (new_w, new_h)

/-- Geometry part of rotate_image when a screen is available
(src/main.py lines 449-502): compute the scaled swapped size, center it on
the previous center, then clamp only the top-left corner to the usable
screen origin. -/
def rotate_geometry_core (geo : QRect) (title_h bottom_h : ℤ) (sg : QRect) :
    QRect :=
  let s := rotate_scaled_size geo title_h bottom_h sg
  let ng := (QRect.mk4 0 0 s.1 s.2).moveCenter geo.center
  let ng2 := if ng.left < sg.left then ng.moveLeft sg.left else ng
  if ng2.top < sg.top then ng2.moveTop sg.top else ng2

/-- Full rotate_image geometry recompute.  When primaryScreen() returns
nothing, the guard at line 483 skips the scaling block, but lines 499-500
still read the local variable screen_geo, which was never assigned: the
Python interpreter raises UnboundLocalError out of the handler. -/
def rotate_image_geometry (geo : QRect) (title_h bottom_h : ℤ)
    (screen : Option QRect) : Except String QRect :=
  match screen with
  | some sg => .ok (rotate_geometry_core geo title_h bottom_h sg)
  | none => .error "UnboundLocalError: screen_geo"

/-- C2 fails as stated for the rotation-triggered recompute, which has no
minimum-size clamp: rotating a 500×100 window (chrome heights 30 and 35,
screen 10000×10000 so no scaling interferes) yields a 35×565 window —
width 35 is far below the 100-unit floor that drag-resize enforces. -/
theorem rotate_can_violate_min_floor :
    rotate_geometry_core (QRect.mk4 0 0 500 100) 30 35
        (QRect.mk4 0 0 10000 10000) = ⟨232, 0, 266, 564⟩ ∧
    (rotate_geometry_core (QRect.mk4 0 0 500 100) 30 35
        (QRect.mk4 0 0 10000 10000)).width = 35 ∧
    ¬(100 ≤ (rotate_geometry_core (QRect.mk4 0 0 500 100) 30 35
        (QRect.mk4 0 0 10000 10000)).width) := by
  decide

theorem mk4_width (x y w h : ℤ) : (QRect.mk4 x y w h).width = w := by
  simp only [QRect.mk4, QRect.width]; ring

theorem mk4_height (x y w h : ℤ) : (QRect.mk4 x y w h).height = h := by
  simp only [QRect.mk4, QRect.height]; ring

theorem moveCenter_width (r : QRect) (c : QPoint) :
    (r.moveCenter c).width = r.width := by
  simp only [QRect.moveCenter, QRect.width]; ring

theorem moveCenter_height (r : QRect) (c : QPoint) :
    (r.moveCenter c).height = r.height := by
  simp only [QRect.moveCenter, QRect.height]; ring

theorem moveLeft_width (r : QRect) (v : ℤ) : (r.moveLeft v).width = r.width := by
  simp only [QRect.moveLeft, QRect.width]; ring

theorem moveLeft_height (r : QRect) (v : ℤ) :
    (r.moveLeft v).height = r.height := rfl

theorem moveTop_width (r : QRect) (v : ℤ) : (r.moveTop v).width = r.width := rfl

theorem moveTop_height (r : QRect) (v : ℤ) :
    (r.moveTop v).height = r.height := by
  simp only [QRect.moveTop, QRect.height]; ring

theorem rot_size_of_fits (g : QRect) (th bh : ℤ) (sg : QRect)
    (hw : contentH th bh g + extra_w_const ≤ sg.width)
    (hh : contentW g + chrome_extra_h th bh ≤ sg.height) :
    (rotate_geometry_core g th bh sg).width
        = contentH th bh g + extra_w_const ∧
    (rotate_geometry_core g th bh sg).height
        = contentW g + chrome_extra_h th bh := by
  have hcond : ¬(contentH th bh g + extra_w_const > sg.width ∨
      contentW g + chrome_extra_h th bh > sg.height) := by omega
  simp only [rotate_geometry_core, rotate_scaled_size, if_neg hcond]
  split_ifs <;>
    simp only [moveTop_width, moveTop_height, moveLeft_width, moveLeft_height,
      moveCenter_width, moveCenter_height, mk4_width, mk4_height] <;>
    exact ⟨trivial, trivial⟩

theorem rot_content_swap (g : QRect) (th bh : ℤ) (sg : QRect)
    (hw : contentH th bh g + extra_w_const ≤ sg.width)
    (hh : contentW g + chrome_extra_h th bh ≤ sg.height) :
    contentW (rotate_geometry_core g th bh sg) = contentH th bh g ∧
    contentH th bh (rotate_geometry_core g th bh sg) = contentW g := by
  obtain ⟨h1, h2⟩ := rot_size_of_fits g th bh sg hw hh
  constructor
  · rw [contentW, h1]
    simp only [contentH, contentW]
    omega
  · rw [contentH, h2]
    simp only [contentH, contentW]
    omega

/-- C8: with screen information available and a screen large enough that no
scale-down clamping occurs in either orientation, a single rotation event
swaps the content width and content height (window size minus chrome
extent), and four successive rotation events return the content aspect
ratio (content width / content height) to its original value. -/
theorem rotation_swaps_content_and_four_cycle (geo sg : QRect) (th bh : ℤ)
    (h1 : contentH th bh geo + extra_w_const ≤ sg.width)
    (h2 : contentW geo + chrome_extra_h th bh ≤ sg.height)
    (h3 : contentW geo + extra_w_const ≤ sg.width)
    (h4 : contentH th bh geo + chrome_extra_h th bh ≤ sg.height) :
    (contentW (rotate_geometry_core geo th bh sg) = contentH th bh geo ∧
     contentH th bh (rotate_geometry_core geo th bh sg) = contentW geo) ∧
    ((contentW (rotate_geometry_core (rotate_geometry_core
        (rotate_geometry_core (rotate_geometry_core geo th bh sg)
          th bh sg) th bh sg) th bh sg) : ℚ) /
     (contentH th bh (rotate_geometry_core (rotate_geometry_core
        (rotate_geometry_core (rotate_geometry_core geo th bh sg)
          th bh sg) th bh sg) th bh sg) : ℚ)
       = (contentW geo : ℚ) / (contentH th bh geo : ℚ)) := by
  have s1 := rot_content_swap geo th bh sg h1 h2
  have s2 := rot_content_swap (rotate_geometry_core geo th bh sg) th bh sg
    (by rw [s1.2]; exact h3) (by rw [s1.1]; exact h4)
  have s3 := rot_content_swap (rotate_geometry_core
      (rotate_geometry_core geo th bh sg) th bh sg) th bh sg
    (by rw [s2.2, s1.1]; exact h1) (by rw [s2.1, s1.2]; exact h2)
  have s4 := rot_content_swap (rotate_geometry_core (rotate_geometry_core
      (rotate_geometry_core geo th bh sg) th bh sg) th bh sg) th bh sg
    (by rw [s3.2, s2.1, s1.2]; exact h3) (by rw [s3.1, s2.2, s1.1]; exact h4)
  refine ⟨s1, ?_⟩
  rw [s4.1, s3.2, s2.1, s1.2, s4.2, s3.1, s2.2, s1.1]

/-- Witness for C8 at a 500×400 window, chrome heights 30 and 35, on a
5000×5000 screen. -/
theorem rotation_swaps_content_and_four_cycle_witness :
    (contentW (rotate_geometry_core (QRect.mk4 0 0 500 400) 30 35
        (QRect.mk4 0 0 5000 5000))
       = contentH 30 35 (QRect.mk4 0 0 500 400) ∧
     contentH 30 35 (rotate_geometry_core (QRect.mk4 0 0 500 400) 30 35
        (QRect.mk4 0 0 5000 5000))
       = contentW (QRect.mk4 0 0 500 400)) ∧
    ((contentW (rotate_geometry_core (rotate_geometry_core
        (rotate_geometry_core (rotate_geometry_core (QRect.mk4 0 0 500 400)
          30 35 (QRect.mk4 0 0 5000 5000)) 30 35 (QRect.mk4 0 0 5000 5000))
        30 35 (QRect.mk4 0 0 5000 5000)) 30 35 (QRect.mk4 0 0 5000 5000)) : ℚ) /
     (contentH 30 35 (rotate_geometry_core (rotate_geometry_core
        (rotate_geometry_core (rotate_geometry_core (QRect.mk4 0 0 500 400)
          30 35 (QRect.mk4 0 0 5000 5000)) 30 35 (QRect.mk4 0 0 5000 5000))
        30 35 (QRect.mk4 0 0 5000 5000)) 30 35 (QRect.mk4 0 0 5000 5000)) : ℚ)
       = (contentW (QRect.mk4 0 0 500 400) : ℚ) /
         (contentH 30 35 (QRect.mk4 0 0 500 400) : ℚ)) :=
  rotation_swaps_content_and_four_cycle (QRect.mk4 0 0 500 400)
    (QRect.mk4 0 0 5000 5000) 30 35 (by decide) (by decide) (by decide)
    (by decide)

theorem moveLeft_left (r : QRect) (v : ℤ) : (r.moveLeft v).left = v := rfl

theorem moveTop_top (r : QRect) (v : ℤ) : (r.moveTop v).top = v := rfl

theorem moveLeft_top (r : QRect) (v : ℤ) : (r.moveLeft v).top = r.top := rfl

theorem moveTop_left (r : QRect) (v : ℤ) : (r.moveTop v).left = r.left := rfl

/-- C9: after a rotation recompute with screen information available, the
result has exactly the swapped-and-possibly-scaled size, its left edge is
the screen-origin clamp (max) of the left edge of the rectangle re-centered
on the previous center, and likewise for the top edge; nothing constrains
the bottom-right corner, and indeed on a concrete input (120×91 window
near the corner of a 1000×1000 screen, chrome heights 30 and 35) the
resulting rectangle's bottom edge 1037 extends past the screen bottom
999. -/
theorem rotation_recenter_clamps_topleft_only :
    (∀ (geo sg : QRect) (th bh : ℤ),
      (rotate_geometry_core geo th bh sg).width
          = (rotate_scaled_size geo th bh sg).1 ∧
      (rotate_geometry_core geo th bh sg).height
          = (rotate_scaled_size geo th bh sg).2 ∧
      (rotate_geometry_core geo th bh sg).left
          = max (((QRect.mk4 0 0 (rotate_scaled_size geo th bh sg).1
                (rotate_scaled_size geo th bh sg).2).moveCenter
                  geo.center).left) sg.left ∧
      (rotate_geometry_core geo th bh sg).top
          = max (((QRect.mk4 0 0 (rotate_scaled_size geo th bh sg).1
                (rotate_scaled_size geo th bh sg).2).moveCenter
                  geo.center).top) sg.top) ∧
    (rotate_geometry_core (QRect.mk4 900 900 120 91) 30 35
        (QRect.mk4 0 0 1000 1000) = ⟨947, 853, 972, 1037⟩ ∧
     (QRect.mk4 0 0 1000 1000).bottom < 1037) := by
  refine ⟨?_, by decide⟩
  intro geo sg th bh
  simp only [rotate_geometry_core]
  split_ifs with hL hT hT <;>
    simp only [moveLeft_left, moveLeft_top, moveLeft_width, moveLeft_height,
      moveTop_left, moveTop_top, moveTop_width, moveTop_height,
      mk4_width, mk4_height, moveCenter_width, moveCenter_height] at * <;>
    refine ⟨trivial, trivial, ?_, ?_⟩ <;>
    omega

theorem setWidth_y1 (g : QRect) (w : ℤ) : (g.setWidth w).y1 = g.y1 := rfl

theorem setWidth_y2 (g : QRect) (w : ℤ) : (g.setWidth w).y2 = g.y2 := rfl

theorem setHeight_x1 (g : QRect) (h : ℤ) : (g.setHeight h).x1 = g.x1 := rfl

theorem setHeight_x2 (g : QRect) (h : ℤ) : (g.setHeight h).x2 = g.x2 := rfl

theorem setHeight_y1 (g : QRect) (h : ℤ) : (g.setHeight h).y1 = g.y1 := rfl

theorem setHeight_y2 (g : QRect) (h : ℤ) :
    (g.setHeight h).y2 = g.y1 + h - 1 := rfl

theorem setWidth_x1 (g : QRect) (w : ℤ) : (g.setWidth w).x1 = g.x1 := rfl

theorem setWidth_x2 (g : QRect) (w : ℤ) :
    (g.setWidth w).x2 = g.x1 + w - 1 := rfl

theorem minClamp_y (g : QRect) (hh : 100 ≤ g.height) :
    (minClamp g).y1 = g.y1 ∧ (minClamp g).y2 = g.y2 := by
  simp only [minClamp]
  split_ifs with h1 h2 h3 <;>
    refine ⟨?_, ?_⟩ <;>
    simp only [setWidth_y1, setWidth_y2, setWidth_height, setHeight_y1,
      setHeight_y2, QRect.height] at * <;>
    omega

theorem minClamp_x (g : QRect) (hw : 100 ≤ g.width) :
    (minClamp g).x1 = g.x1 ∧ (minClamp g).x2 = g.x2 := by
  simp only [minClamp]
  split_ifs with h1 h2 h3 <;>
    refine ⟨?_, ?_⟩ <;>
    simp only [setHeight_x1, setHeight_x2, setWidth_x1, setWidth_x2,
      setWidth_height, QRect.width, QRect.height] at * <;>
    omega

theorem setTop_height_of_bottom (g : QRect) (n : ℤ) :
    (g.setTop (g.y2 - n + 1)).height = n := by
  simp only [QRect.setTop, QRect.height]; ring

theorem setLeft_width_of_right (g : QRect) (n : ℤ) :
    (g.setLeft (g.x2 - n + 1)).width = n := by
  simp only [QRect.setLeft, QRect.width]; ring

theorem handle_resize_constrained (mask : ℕ) (geo : QRect) (d : QPoint)
    (r : Frac) (hr : r.n ≠ 0) :
    handle_resize mask geo d (some r)
      = minClamp (applyAspect mask geo (resizeCandidate mask geo d) r) := by
  simp only [handle_resize, if_pos hr]

theorem applyAspect_corner_top (mask : ℕ) (geo cand : QRect) (r : Frac)
    (h12 : ¬(mask = 1 ∨ mask = 2)) (h48 : ¬(mask = 4 ∨ mask = 8))
    (h4 : mask &&& 4 ≠ 0)
    (hdrive : ((|cand.height - geo.height| : ℤ) : Frac) * r
      < ((|cand.width - geo.width| : ℤ) : Frac)) :
    applyAspect mask geo cand r
      = cand.setTop (cand.bottom - pyInt
          (((max 1 (cand.width - extra_w_const) : ℤ) : Frac) / r
            + (resize_extra_h : Frac)) + 1) := by
  simp only [applyAspect]
  rw [if_neg h12, if_neg h48, if_pos hdrive, if_pos h4]

theorem applyAspect_corner_left (mask : ℕ) (geo cand : QRect) (r : Frac)
    (h12 : ¬(mask = 1 ∨ mask = 2)) (h48 : ¬(mask = 4 ∨ mask = 8))
    (h1 : mask &&& 1 ≠ 0)
    (hdrive : ¬(((|cand.height - geo.height| : ℤ) : Frac) * r
      < ((|cand.width - geo.width| : ℤ) : Frac))) :
    applyAspect mask geo cand r
      = cand.setLeft (cand.right - pyInt
          (((max 1 (cand.height - resize_extra_h) : ℤ) : Frac) * r
            + (extra_w_const : Frac)) + 1) := by
  simp only [applyAspect]
  rw [if_neg h12, if_neg h48, if_neg hdrive, if_pos h1]

theorem clamp_setTop_anchor (cand : QRect) (n : ℤ) (hn : 100 ≤ n) :
    (minClamp (cand.setTop (cand.bottom - n + 1))).bottom = cand.bottom ∧
    (minClamp (cand.setTop (cand.bottom - n + 1))).top
      = cand.bottom - n + 1 := by
  have hh : 100 ≤ (cand.setTop (cand.bottom - n + 1)).height := by
    simp only [QRect.setTop, QRect.height, QRect.bottom]; omega
  have hy := minClamp_y _ hh
  constructor
  · show (minClamp (cand.setTop (cand.bottom - n + 1))).y2 = cand.y2
    rw [hy.2]; rfl
  · show (minClamp (cand.setTop (cand.bottom - n + 1))).y1
      = cand.bottom - n + 1
    rw [hy.1]; rfl

theorem clamp_setLeft_anchor (cand : QRect) (n : ℤ) (hn : 100 ≤ n) :
    (minClamp (cand.setLeft (cand.right - n + 1))).right = cand.right ∧
    (minClamp (cand.setLeft (cand.right - n + 1))).left
      = cand.right - n + 1 := by
  have hw : 100 ≤ (cand.setLeft (cand.right - n + 1)).width := by
    simp only [QRect.setLeft, QRect.width, QRect.right]; omega
  have hx := minClamp_x _ hw
  constructor
  · show (minClamp (cand.setLeft (cand.right - n + 1))).x2 = cand.x2
    rw [hx.2]; rfl
  · show (minClamp (cand.setLeft (cand.right - n + 1))).x1
      = cand.right - n + 1
    rw [hx.1]; rfl

/-- C5: for a corner drag with an active aspect constraint, the driving
axis comes from comparing the raw pre-constraint deltas of the candidate
rectangle against the anchor.  When width drives (|ΔW| > |ΔH|·r) on a
corner including the Top edge (masks 5 and 6), the bottom edge stays fixed
at the anchor's bottom and the top is repositioned to
bottom − newHeight + 1; symmetrically, when height drives on a corner
including the Left edge (masks 5 and 9), the right edge stays fixed at the
anchor's right and the left is repositioned to right − newWidth + 1.  (The
minimum-size hypotheses keep the final 100-unit clamp from moving the edge
in question.) -/
theorem corner_drive_axis_geometry (geo : QRect) (d : QPoint) (r : Frac)
    (hr : r.n ≠ 0) (mask : ℕ) :
    ((mask = 5 ∨ mask = 6) →
      (((|(resizeCandidate mask geo d).height - geo.height| : ℤ) : Frac) * r
          < ((|(resizeCandidate mask geo d).width - geo.width| : ℤ) : Frac)) →
      (100 ≤ pyInt
        (((max 1 ((resizeCandidate mask geo d).width - extra_w_const) : ℤ) : Frac) / r
          + (resize_extra_h : Frac))) →
      (handle_resize mask geo d (some r)).bottom = geo.bottom ∧
      (handle_resize mask geo d (some r)).top
        = geo.bottom - pyInt
            (((max 1 ((resizeCandidate mask geo d).width - extra_w_const) : ℤ) : Frac) / r
              + (resize_extra_h : Frac)) + 1) ∧
    ((mask = 5 ∨ mask = 9) →
      ¬(((|(resizeCandidate mask geo d).height - geo.height| : ℤ) : Frac) * r
          < ((|(resizeCandidate mask geo d).width - geo.width| : ℤ) : Frac)) →
      (100 ≤ pyInt
        (((max 1 ((resizeCandidate mask geo d).height - resize_extra_h) : ℤ) : Frac) * r
          + (extra_w_const : Frac))) →
      (handle_resize mask geo d (some r)).right = geo.right ∧
      (handle_resize mask geo d (some r)).left
        = geo.right - pyInt
            (((max 1 ((resizeCandidate mask geo d).height - resize_extra_h) : ℤ) : Frac) * r
              + (extra_w_const : Frac)) + 1) := by
  constructor
  · rintro hm hdrive hmin
    rcases hm with rfl | rfl
    · rw [handle_resize_constrained 5 geo d r hr,
        applyAspect_corner_top 5 geo (resizeCandidate 5 geo d) r
          (by decide) (by decide) (by decide) hdrive]
      have hc := clamp_setTop_anchor (resizeCandidate 5 geo d) _ hmin
      have hb : (resizeCandidate 5 geo d).bottom = geo.bottom := rfl
      rw [hc.1, hc.2, hb]
      exact ⟨rfl, rfl⟩
    · rw [handle_resize_constrained 6 geo d r hr,
        applyAspect_corner_top 6 geo (resizeCandidate 6 geo d) r
          (by decide) (by decide) (by decide) hdrive]
      have hc := clamp_setTop_anchor (resizeCandidate 6 geo d) _ hmin
      have hb : (resizeCandidate 6 geo d).bottom = geo.bottom := rfl
      rw [hc.1, hc.2, hb]
      exact ⟨rfl, rfl⟩
  · rintro hm hdrive hmin
    rcases hm with rfl | rfl
    · rw [handle_resize_constrained 5 geo d r hr,
        applyAspect_corner_left 5 geo (resizeCandidate 5 geo d) r
          (by decide) (by decide) (by decide) hdrive]
      have hc := clamp_setLeft_anchor (resizeCandidate 5 geo d) _ hmin
      have hb : (resizeCandidate 5 geo d).right = geo.right := rfl
      rw [hc.1, hc.2, hb]
      exact ⟨rfl, rfl⟩
    · rw [handle_resize_constrained 9 geo d r hr,
        applyAspect_corner_left 9 geo (resizeCandidate 9 geo d) r
          (by decide) (by decide) (by decide) hdrive]
      have hc := clamp_setLeft_anchor (resizeCandidate 9 geo d) _ hmin
      have hb : (resizeCandidate 9 geo d).right = geo.right := rfl
      rw [hc.1, hc.2, hb]
      exact ⟨rfl, rfl⟩

/-- Witness for C5: mask 6 (Top ∪ Right) on a 500×400 window, delta
(200,−10), ratio 3/2.  The proposed width delta 200 exceeds the proposed
height delta 10 scaled by 3/2, so width drives; the new height is 532 and
the top is repositioned against the fixed bottom. -/
theorem corner_drive_axis_geometry_witness :
    (handle_resize 6 (QRect.mk4 0 0 500 400) ⟨200, -10⟩ (some ⟨3, 2⟩)).bottom
      = (QRect.mk4 0 0 500 400).bottom ∧
    (handle_resize 6 (QRect.mk4 0 0 500 400) ⟨200, -10⟩ (some ⟨3, 2⟩)).top
      = (QRect.mk4 0 0 500 400).bottom - pyInt
          (((max 1 ((resizeCandidate 6 (QRect.mk4 0 0 500 400) ⟨200, -10⟩).width
            - extra_w_const) : ℤ) : Frac) / ⟨3, 2⟩ + (resize_extra_h : Frac)) + 1 :=
  (corner_drive_axis_geometry (QRect.mk4 0 0 500 400) ⟨200, -10⟩ ⟨3, 2⟩
    (by decide) 6).1 (Or.inr rfl) (by decide) (by decide)

/-- State captured by handle_mouse_press for a drag-move gesture
(src/main.py lines 553-556): the pointer anchor `drag_start_pos`, the
window anchor `window_start_pos`, and the current window position
`winPos`. -/
structure DragGesture where
  drag_start_pos : QPoint
  window_start_pos : QPoint
  winPos : QPoint
deriving DecidableEq, Repr

/-- handle_mouse_press with an empty edge mask (src/main.py lines
553-556). -/
def dragPress (winPos g : QPoint) : DragGesture := ⟨g, winPos, winPos⟩

/-- handle_mouse_move while dragging (src/main.py lines 561-563):
move(window_start_pos + (global_pos - drag_start_pos)). -/
def dragMoveStep (st : DragGesture) (g : QPoint) : DragGesture :=
  { st with winPos := st.window_start_pos + (g - st.drag_start_pos) }

theorem dragFold_winPos (st : DragGesture) (moves : List QPoint)
    (h : moves ≠ []) :
    (moves.foldl dragMoveStep st).winPos
      = st.window_start_pos + (moves.getLast h - st.drag_start_pos) := by
  induction moves generalizing st with
  | nil => exact absurd rfl h
  | cons a t ih =>
    cases t with
    | nil => rfl
    | cons b t2 =>
      rw [List.foldl_cons, ih (dragMoveStep st a) (List.cons_ne_nil b t2),
        show (a :: b :: t2).getLast h = (b :: t2).getLast (List.cons_ne_nil b t2)
          from List.getLast_cons _]
      rfl

/-- C7: for every drag-move gesture — press with empty edge mask at
pointer `press` with the window at `init`, any nonempty finite sequence of
intermediate move events ending at the release position — the final window
position is `init + (last pointer position - press)`: it depends only on
the final pointer position (independent of intermediate moves) and is
never clamped to screen bounds. -/
theorem drag_move_final_position (init press : QPoint) (moves : List QPoint)
    (h : moves ≠ []) :
    (moves.foldl dragMoveStep (dragPress init press)).winPos
      = init + (moves.getLast h - press) :=
  dragFold_winPos (dragPress init press) moves h

/-- Witness for C7: window at (0,0), press at (5,5), moves through (1,1)
then (7,3): final position (0,0) + ((7,3) − (5,5)) = (2,−2). -/
theorem drag_move_final_position_witness :
    (([⟨1, 1⟩, ⟨7, 3⟩] : List QPoint).foldl dragMoveStep
      (dragPress ⟨0, 0⟩ ⟨5, 5⟩)).winPos = (⟨2, -2⟩ : QPoint) :=
  (drag_move_final_position ⟨0, 0⟩ ⟨5, 5⟩ [⟨1, 1⟩, ⟨7, 3⟩]
    (by decide)).trans (by decide)

/-- Controller state touched by load_image: the displayed pixmap (as its
pixel dimensions), the stored aspect-ratio float, the window geometry, and
the window title. -/
structure AppState where
  pixmap : Option (ℤ × ℤ)
  aspectConstraint : Option Frac
  geometry : QRect
  title : String
deriving DecidableEq, Repr

/-- ImageOverlayApp.load_image (src/main.py lines 357-433).  `decoded` is
the decode result for the file path (none for a null image, otherwise the
pixel dimensions), `name` the displayed basename, `th`/`bh` the current
title-bar and bottom-bar heights, `screen` the primaryScreen available
geometry if any.  A null image returns immediately with the state
untouched (line 359-360); with no screen info the fallback (lines 429-433)
resizes to the unscaled image size plus chrome, keeping the window
position. -/
def load_image (st : AppState) (decoded : Option (ℤ × ℤ)) (name : String)
    (th bh : ℤ) (screen : Option QRect) : AppState :=
  match decoded with
  | none => st
  | some (pw, ph) =>
    let aspect := if 0 < ph then some ((pw : Frac) / (ph : Frac))
                  else st.aspectConstraint
    let eh := chrome_extra_h th bh
    match screen with
    | some sg =>
      let max_w := (sg.width : Frac) * (⟨17, 20⟩ : Frac)
      let max_h := (sg.height : Frac) * (⟨17, 20⟩ : Frac)
      let max_img_w := max_w - (extra_w_const : Frac)
      let max_img_h := max_h - (eh : Frac)
      let scale_w := if 0 < pw then max_img_w / (pw : Frac) else 1
      let scale_h := if 0 < ph then max_img_h / (ph : Frac) else 1
      let scale0 := Frac.fmin scale_w scale_h
      let scale := if (1 : Frac) < scale0 then 1 else scale0
      let target_w := pyInt ((pw : Frac) * scale + (extra_w_const : Frac))
      let target_h := pyInt ((ph : Frac) * scale + (eh : Frac))
      let x := sg.left + (sg.width - target_w).fdiv 2
      let y := sg.top + (sg.height - target_h).fdiv 2
      { st with pixmap := some (pw, ph), aspectConstraint := aspect,
                title := name, geometry := QRect.mk4 x y target_w target_h }
    | none =>
      { st with pixmap := some (pw, ph), aspectConstraint := aspect,
                title := name,
                geometry := (st.geometry.setWidth (pw + extra_w_const)).setHeight
                  (ph + eh) }

/-- C10: for every file path whose decode yields a null image, load_image
returns immediately and the whole controller state — pixmap, aspect
constraint, window geometry and title — is exactly as before the call. -/
theorem load_null_image_is_noop (st : AppState) (name : String)
    (th bh : ℤ) (screen : Option QRect) :
    load_image st none name th bh screen = st := rfl

/-- C1 records the divergence: when primaryScreen() returns nothing, every
load event falls back to the unclamped, unscaled target size (content
dimensions plus chrome, window position kept), but every rotation event
raises out of the controller — lines 499-500 of rotate_image read
screen_geo outside the `if screen:` guard, an UnboundLocalError — instead
of completing normally as the claim states. -/
theorem screen_unavailable_rotate_raises :
    (∀ (geo : QRect) (th bh : ℤ),
      rotate_image_geometry geo th bh none
        = .error "UnboundLocalError: screen_geo") ∧
    (∀ (st : AppState) (pw ph th bh : ℤ) (name : String),
      (load_image st (some (pw, ph)) name th bh none).geometry
        = (st.geometry.setWidth (pw + extra_w_const)).setHeight
            (ph + chrome_extra_h th bh)) :=
  ⟨fun _ _ _ => rfl, fun _ _ _ _ _ _ => rfl⟩

/-- C3 records the divergence: load_image and rotate_image compute the
vertical chrome extent from the current widget heights —
title_h + max(bottom_h, 35) + 18, which is 83 for the app's fixed heights
30 and 35 — while handle_resize hardcodes 78 (line 641); the extents agree
only when title_h + max(bottom_h, 35) = 60.  Concretely, the Right-edge
drag of C4 produces height 432 under the hardcoded 78, where the fresh
chrome extent 83 would give 437. -/
theorem resize_chrome_extent_differs_from_load :
    chrome_extra_h 30 35 = 83 ∧ resize_extra_h = 78 ∧
    chrome_extra_h 30 35 ≠ resize_extra_h ∧
    (handle_resize 2 (QRect.mk4 100 100 500 400) ⟨50, 0⟩
      (some ⟨3, 2⟩)).height = 432 ∧
    pyInt (((532 : ℤ) : Frac) / ⟨3, 2⟩ + ((chrome_extra_h 30 35 : ℤ) : Frac))
      = 437 := by
  decide

end ImageOverlay
